import Mathlib

/-!
Shallow embedding of `src/lib/ZoomControls.js` (box-content-preview).

The widget owns three DOM elements in a host `Controls` container: a
zoom-out button, a scale label, and a zoom-in button.  JS numbers are
modelled by `JSVal`: finite numbers as rationals, plus `nan`, `posInf`,
`negInf`, `undef` (an unassigned field / `undefined`) and `other`
(non-numeric values such as strings, objects or `null`).  The `Controls`
host class is not part of the given sources; where its behaviour matters
(what `controls.add` renders, what `querySelector` returns) it is
modelled from the spec, as marked in the doc comments.
-/

/-- Model of a JS value as it flows through ZoomControls: a finite number
(exact rational), `NaN`, `±Infinity`, `undefined` (also the value of a
never-assigned class field) or any non-numeric value (`other`). -/
inductive JSVal where
  | num : ℚ → JSVal
  | nan : JSVal
  | posInf : JSVal
  | negInf : JSVal
  | undef : JSVal
  | other : JSVal
deriving DecidableEq

/-- lodash `isFinite(v)`: true exactly on finite numbers. -/
def jsIsFinite : JSVal → Bool
  | JSVal.num _ => true
  | _ => false

/-- JS `Math.round` on a finite number: round half toward positive
infinity, i.e. `⌊q + 1/2⌋`. -/
def jsRound (q : ℚ) : ℤ := Int.floor (q + 1/2)

/-- JS `Math.round` lifted to `JSVal`: `Math.round(±Infinity) = ±Infinity`,
`Math.round(NaN) = NaN`, `Math.round(undefined) = NaN`. -/
def jsMathRound : JSVal → JSVal
  | JSVal.num q => JSVal.num (jsRound q)
  | JSVal.posInf => JSVal.posInf
  | JSVal.negInf => JSVal.negInf
  | _ => JSVal.nan

/-- The JS expression `v * 100` for the values that can reach it here. -/
def jsMul100 : JSVal → JSVal
  | JSVal.num q => JSVal.num (q * 100)
  | JSVal.posInf => JSVal.posInf
  | JSVal.negInf => JSVal.negInf
  | _ => JSVal.nan

/-- The JS expression `Math.max(v, 0)`: `NaN` propagates, otherwise the
larger of the two. -/
def jsMax0 : JSVal → JSVal
  | JSVal.num q => JSVal.num (max q 0)
  | JSVal.posInf => JSVal.posInf
  | JSVal.negInf => JSVal.num 0
  | _ => JSVal.nan

/-- JS `a <= b`: false whenever either side converts to `NaN` (so also for
`undefined` fields), the usual order on numbers and infinities otherwise. -/
def jsLe : JSVal → JSVal → Bool
  | JSVal.num a, JSVal.num b => decide (a ≤ b)
  | JSVal.num _, JSVal.posInf => true
  | JSVal.negInf, JSVal.num _ => true
  | JSVal.negInf, JSVal.posInf => true
  | JSVal.negInf, JSVal.negInf => true
  | JSVal.posInf, JSVal.posInf => true
  | _, _ => false

/-- JS `a >= b` (same as `b <= a`, including the NaN cases). -/
def jsGe (a b : JSVal) : Bool := jsLe b a

/-- A zoom button element; only its `disabled` flag matters here. -/
structure ZoomButton where
  disabled : Bool
deriving DecidableEq

/-- Content of the scale-label element (class `bp-zoom-current-scale`).
`markupSpan testid text` is the state produced by the initial markup
string `<span data-testid="current-zoom">100%</span>` from `init`;
`textNode text` is the state after a `textContent` assignment, which per
DOM semantics replaces all children with a single bare text node. -/
inductive LabelContent where
  | markupSpan : String → String → LabelContent
  | textNode : String → LabelContent
deriving DecidableEq

/-- The text a user sees in the scale label. -/
def labelVisibleText : LabelContent → String
  | LabelContent.markupSpan _ t => t
  | LabelContent.textNode t => t

/-- Whether the label still carries the `data-testid="current-zoom"`
marker on its inner node. -/
def labelHasTestMarker : LabelContent → Bool
  | LabelContent.markupSpan tid _ => decide (tid = "current-zoom")
  | LabelContent.textNode _ => false

/-- The part of the host `controlsElement` subtree that ZoomControls
queries: `querySelector` results for the three class selectors, `none`
when no matching element exists. -/
structure ControlsDom where
  zoomOutBtn : Option ZoomButton
  zoomInBtn : Option ZoomButton
  scaleLabel : Option LabelContent
deriving DecidableEq

/-- The cached `this.currentScaleElement` reference: never assigned
(`undef`, before `init`), assigned `null` (querySelector found nothing),
or a live reference to the scale-label element. -/
inductive ElemRef where
  | undef : ElemRef
  | nullRef : ElemRef
  | labelRef : ElemRef
deriving DecidableEq

/-- Instance state of a ZoomControls object.  `controlsStored` and
`controlsElementStored` record that the constructor assigned
`this.controls` / `this.controlsElement` (the references themselves are
opaque); `dom` is the host element subtree the instance mutates. -/
structure ZoomControlsState where
  dom : ControlsDom
  currentScale : JSVal
  minZoom : JSVal
  maxZoom : JSVal
  currentScaleElement : ElemRef
  controlsStored : Bool
  controlsElementStored : Bool
deriving DecidableEq

/-- The constructor argument: a genuine `Controls` instance, `null`, or
any truthy value that is not `instanceof Controls` (e.g. a plain object). -/
inductive ControlsArg where
  | controlsInstance : ControlsArg
  | nullValue : ControlsArg
  | plainObject : ControlsArg
deriving DecidableEq

/-- The state a freshly constructed instance is in: host references
stored, every other field still `undefined`, no zoom elements in the DOM. -/
def constructedState : ZoomControlsState :=
  { dom := { zoomOutBtn := none, zoomInBtn := none, scaleLabel := none }
    currentScale := JSVal.undef
    minZoom := JSVal.undef
    maxZoom := JSVal.undef
    currentScaleElement := ElemRef.undef
    controlsStored := true
    controlsElementStored := true }

/-- `constructor(controls)`: `if (!controls || !(controls instanceof
Controls)) throw Error('controls must be an instance of Controls');`
then stores `controls` and `controls.controlsEl`.  `null` is falsy and a
plain object fails the `instanceof` test, so both throw. -/
def zoomControlsConstructor : ControlsArg → Except String ZoomControlsState
  | ControlsArg.controlsInstance => Except.ok constructedState
  | ControlsArg.nullValue => Except.error "controls must be an instance of Controls"
  | ControlsArg.plainObject => Except.error "controls must be an instance of Controls"

/-- `validateZoom(zoomValue, defaultZoomValue)`: the value if it is a
finite number, the default otherwise. -/
def validateZoom (zoomValue defaultZoomValue : JSVal) : JSVal :=
  if jsIsFinite zoomValue then zoomValue else defaultZoomValue

/-- `checkButtonEnablement()`: re-query each button by class; when found,
set `zoomOutElement.disabled = currentScale <= minZoom` and
`zoomInElement.disabled = currentScale >= maxZoom`; a missing button is
skipped.  The function is total (it can never throw). -/
def checkButtonEnablement (st : ZoomControlsState) : ZoomControlsState :=
  let dom1 :=
    match st.dom.zoomOutBtn with
    | some _ => { st.dom with zoomOutBtn := some ⟨jsLe st.currentScale st.minZoom⟩ }
    | none => st.dom
  let dom2 :=
    match dom1.zoomInBtn with
    | some _ => { dom1 with zoomInBtn := some ⟨jsGe st.currentScale st.maxZoom⟩ }
    | none => dom1
  { st with dom := dom2 }

/-- `setCurrentScale(scale)`.  `if (!isFinite(scale)) return;` — only the
`num` constructor is finite, so every other value returns the state
unchanged.  For a finite scale, `this.currentScale = Math.round(scale *
100)`, then `this.currentScaleElement.textContent = ...` — a `TypeError`
(modelled as `none`) when the cached reference is `undefined` or `null`,
otherwise the assignment replaces the label content with a bare text node
— then `this.checkButtonEnablement()`. -/
def setCurrentScale (st : ZoomControlsState) (scale : JSVal) : Option ZoomControlsState :=
  match scale with
  | JSVal.num q =>
    match st.currentScaleElement with
    | ElemRef.labelRef =>
      some (checkButtonEnablement
        { st with
            currentScale := JSVal.num (jsRound (q * 100))
            dom := { st.dom with
                       scaleLabel :=
                         some (LabelContent.textNode (toString (jsRound (q * 100)) ++ "%")) } })
    | _ => none
  | _ => some st

/-- Options object for `init`; only the fields the modelled state depends
on are kept (`zoomInClassName`, `zoomOutClassName`, `onZoomIn`,
`onZoomOut` only decorate the created buttons and are opaque here).  An
absent property is `undef`, which triggers the destructuring defaults
`minZoom = 0` and `maxZoom = Number.POSITIVE_INFINITY`. -/
structure InitOptions where
  minZoom : JSVal
  maxZoom : JSVal
deriving DecidableEq

/-- `init(currentScale, { minZoom = 0, maxZoom = Infinity, ... })`:

* `this.maxZoom = Math.round(validateZoom(maxZoom, Infinity) * 100)`;
* `this.minZoom = Math.round(Math.max(validateZoom(minZoom, 0), 0) * 100)`;
* three `controls.add` calls build, in order, the zoom-out button, the
  scale label with inner markup `<span data-testid="current-zoom">100%</span>`,
  and the zoom-in button — modelled from the spec (§6 host contract):
  `Controls` is not in the given sources; per the spec each `addControl`
  creates an element carrying the given style classes with the given
  markup as its content, and a fresh button element starts enabled;
* `this.currentScaleElement = querySelector('.bp-zoom-current-scale')`
  resolves to the just-created label element;
* finally `this.setCurrentScale(currentScale)`.

`initReadyState` is the instance state just before that final
`setCurrentScale` call; the steps before it assign disjoint fields, so
they are modelled as one record update. -/
def initReadyState (st : ZoomControlsState) (opts : InitOptions) : ZoomControlsState :=
  { st with
      maxZoom := jsMathRound (jsMul100 (validateZoom
        (if opts.maxZoom = JSVal.undef then JSVal.posInf else opts.maxZoom) JSVal.posInf))
      minZoom := jsMathRound (jsMul100 (jsMax0 (validateZoom
        (if opts.minZoom = JSVal.undef then JSVal.num 0 else opts.minZoom) (JSVal.num 0))))
      dom := { zoomOutBtn := some ⟨false⟩
               zoomInBtn := some ⟨false⟩
               scaleLabel := some (LabelContent.markupSpan "current-zoom" "100%") }
      currentScaleElement := ElemRef.labelRef }

/-- `init` proper: build the ready state and run the initial
`setCurrentScale(currentScale)`. -/
def init (st : ZoomControlsState) (currentScale : JSVal) (opts : InitOptions) :
    Option ZoomControlsState :=
  setCurrentScale (initReadyState st opts) currentScale

/-- A concrete initialized instance used by witnesses: bounds 25% / 200%,
all three elements present, scale not yet set. -/
def sampleReadyState : ZoomControlsState :=
  { dom := { zoomOutBtn := some ⟨false⟩
             zoomInBtn := some ⟨false⟩
             scaleLabel := some (LabelContent.markupSpan "current-zoom" "100%") }
    currentScale := JSVal.undef
    minZoom := JSVal.num ((25 : ℤ) : ℚ)
    maxZoom := JSVal.num ((200 : ℤ) : ℚ)
    currentScaleElement := ElemRef.labelRef
    controlsStored := true
    controlsElementStored := true }

/-- The state `sampleReadyState` reaches after `setCurrentScale(0.5)`. -/
def sampleUpdatedState : ZoomControlsState :=
  checkButtonEnablement
    { sampleReadyState with
        currentScale := JSVal.num (jsRound (1/2 * 100))
        dom := { sampleReadyState.dom with
                   scaleLabel :=
                     some (LabelContent.textNode (toString (jsRound (1/2 * 100)) ++ "%")) } }

/-- An instance whose zoom-out button is missing from the DOM while the
zoom-in button is present (and currently disabled). -/
def missingOutState : ZoomControlsState :=
  { sampleReadyState with
      dom := { zoomOutBtn := none
               zoomInBtn := some ⟨true⟩
               scaleLabel := some (LabelContent.markupSpan "current-zoom" "100%") } }

/-! ## Helper lemmas -/

theorem jsRound_nonneg (q : ℚ) (h : 0 ≤ q) : 0 ≤ jsRound q := by
  unfold jsRound
  rw [Int.le_floor]
  push_cast
  linarith

theorem checkButtonEnablement_currentScale (st : ZoomControlsState) :
    (checkButtonEnablement st).currentScale = st.currentScale := rfl

theorem checkButtonEnablement_scaleLabel (st : ZoomControlsState) :
    (checkButtonEnablement st).dom.scaleLabel = st.dom.scaleLabel := by
  unfold checkButtonEnablement
  cases h1 : st.dom.zoomOutBtn <;> cases h2 : st.dom.zoomInBtn <;> simp [h1, h2]

theorem checkButtonEnablement_buttons (st : ZoomControlsState)
    (b1 b2 : ZoomButton)
    (h1 : st.dom.zoomOutBtn = some b1) (h2 : st.dom.zoomInBtn = some b2) :
    (checkButtonEnablement st).dom.zoomOutBtn = some ⟨jsLe st.currentScale st.minZoom⟩ ∧
    (checkButtonEnablement st).dom.zoomInBtn = some ⟨jsGe st.currentScale st.maxZoom⟩ := by
  unfold checkButtonEnablement
  simp [h1, h2]

theorem setCurrentScale_num_eq (st : ZoomControlsState) (q : ℚ)
    (h : st.currentScaleElement = ElemRef.labelRef) :
    setCurrentScale st (JSVal.num q) =
      some (checkButtonEnablement
        { st with
            currentScale := JSVal.num (jsRound (q * 100))
            dom := { st.dom with
                       scaleLabel :=
                         some (LabelContent.textNode (toString (jsRound (q * 100)) ++ "%")) } }) := by
  unfold setCurrentScale
  rw [h]

theorem setCurrentScale_preserves (st st' : ZoomControlsState) (v : JSVal)
    (h : setCurrentScale st v = some st') :
    st'.minZoom = st.minZoom ∧ st'.maxZoom = st.maxZoom ∧
    st'.currentScaleElement = st.currentScaleElement ∧
    st'.controlsStored = st.controlsStored ∧
    st'.controlsElementStored = st.controlsElementStored := by
  cases v with
  | num q =>
    unfold setCurrentScale at h
    cases he : st.currentScaleElement <;> rw [he] at h <;> simp at h
    subst h
    exact ⟨rfl, rfl, rfl, rfl, rfl⟩
  | nan => simp [setCurrentScale] at h; subst h; exact ⟨rfl, rfl, rfl, rfl, rfl⟩
  | posInf => simp [setCurrentScale] at h; subst h; exact ⟨rfl, rfl, rfl, rfl, rfl⟩
  | negInf => simp [setCurrentScale] at h; subst h; exact ⟨rfl, rfl, rfl, rfl, rfl⟩
  | undef => simp [setCurrentScale] at h; subst h; exact ⟨rfl, rfl, rfl, rfl, rfl⟩
  | other => simp [setCurrentScale] at h; subst h; exact ⟨rfl, rfl, rfl, rfl, rfl⟩

/-! ## Claims -/

/-- C1: for every finite `scale`, `setCurrentScale(scale)` stores
`round(scale * 100)` as the new current scale, sets the scale label's
visible text to that integer followed by `"%"`, and then re-runs the
button enablement check (the result state is exactly
`checkButtonEnablement` of the state with the stored scale and the
updated label). -/
theorem setCurrentScale_finite_updates (st : ZoomControlsState) (q : ℚ)
    (h : st.currentScaleElement = ElemRef.labelRef) :
    setCurrentScale st (JSVal.num q) =
      some (checkButtonEnablement
        { st with
            currentScale := JSVal.num (jsRound (q * 100))
            dom := { st.dom with
                       scaleLabel :=
                         some (LabelContent.textNode (toString (jsRound (q * 100)) ++ "%")) } }) ∧
    ∀ st' : ZoomControlsState, setCurrentScale st (JSVal.num q) = some st' →
      st'.currentScale = JSVal.num (jsRound (q * 100)) ∧
      st'.dom.scaleLabel.map labelVisibleText =
        some (toString (jsRound (q * 100)) ++ "%") := by
  have heq := setCurrentScale_num_eq st q h
  refine ⟨heq, ?_⟩
  intro st' h'
  rw [heq] at h'
  simp only [Option.some.injEq] at h'
  subst h'
  refine ⟨rfl, ?_⟩
  rw [checkButtonEnablement_scaleLabel]
  rfl

/-- C1 witness: a concrete instance with the label cached, updated to
scale `0.5`. -/
theorem setCurrentScale_finite_updates_witness :
    setCurrentScale sampleReadyState (JSVal.num (1/2)) =
      some (checkButtonEnablement
        { sampleReadyState with
            currentScale := JSVal.num (jsRound (1/2 * 100))
            dom := { sampleReadyState.dom with
                       scaleLabel :=
                         some (LabelContent.textNode (toString (jsRound (1/2 * 100)) ++ "%")) } }) :=
  (setCurrentScale_finite_updates sampleReadyState (1/2) rfl).1

/-- C2: after every successful scale update, the zoom-out button is
disabled iff the new current scale is at most `minZoom`, the zoom-in
button is disabled iff it is at least `maxZoom`, and strictly between
the bounds both buttons are enabled. -/
theorem enablement_after_update (st st' : ZoomControlsState) (q : ℚ) (minP maxP : ℤ)
    (hmin : st.minZoom = JSVal.num (minP : ℚ)) (hmax : st.maxZoom = JSVal.num (maxP : ℚ))
    (hout : st.dom.zoomOutBtn.isSome = true) (hin : st.dom.zoomInBtn.isSome = true)
    (h : setCurrentScale st (JSVal.num q) = some st') :
    st'.dom.zoomOutBtn = some ⟨decide (jsRound (q * 100) ≤ minP)⟩ ∧
    st'.dom.zoomInBtn = some ⟨decide (maxP ≤ jsRound (q * 100))⟩ ∧
    (minP < jsRound (q * 100) → jsRound (q * 100) < maxP →
      st'.dom.zoomOutBtn = some ⟨false⟩ ∧ st'.dom.zoomInBtn = some ⟨false⟩) := by
  obtain ⟨b1, hb1⟩ := Option.isSome_iff_exists.mp hout
  obtain ⟨b2, hb2⟩ := Option.isSome_iff_exists.mp hin
  have hlbl : st.currentScaleElement = ElemRef.labelRef := by
    by_contra hne
    rw [setCurrentScale] at h
    rcases hc : st.currentScaleElement with _ | _ | _ <;> rw [hc] at h <;>
      first | exact hne hc | exact Option.noConfusion h
  rw [setCurrentScale_num_eq st q hlbl] at h
  simp only [Option.some.injEq] at h
  subst h
  have hbtns := checkButtonEnablement_buttons
    { st with
        currentScale := JSVal.num (jsRound (q * 100))
        dom := { st.dom with
                   scaleLabel :=
                     some (LabelContent.textNode (toString (jsRound (q * 100)) ++ "%")) } }
    b1 b2 hb1 hb2
  have hle : jsLe (JSVal.num ((jsRound (q * 100) : ℤ) : ℚ)) st.minZoom =
      decide (jsRound (q * 100) ≤ minP) := by
    rw [hmin]
    simp only [jsLe]
    rw [decide_eq_decide]
    exact Int.cast_le
  have hge : jsGe (JSVal.num ((jsRound (q * 100) : ℤ) : ℚ)) st.maxZoom =
      decide (maxP ≤ jsRound (q * 100)) := by
    rw [hmax]
    simp only [jsGe, jsLe]
    rw [decide_eq_decide]
    exact Int.cast_le
  rw [hle, hge] at hbtns
  refine ⟨hbtns.1, hbtns.2, ?_⟩
  intro hlo hhi
  constructor
  · rw [hbtns.1]
    simp [not_le.mpr hlo]
  · rw [hbtns.2]
    simp [not_le.mpr hhi]

/-- C2 witness: the concrete instance with bounds 25 / 200, updated to
50%: both buttons end up enabled. -/
theorem enablement_after_update_witness :
    sampleUpdatedState.dom.zoomOutBtn = some ⟨decide (jsRound (1/2 * 100) ≤ (25 : ℤ))⟩ ∧
    sampleUpdatedState.dom.zoomInBtn = some ⟨decide ((200 : ℤ) ≤ jsRound (1/2 * 100))⟩ ∧
    ((25 : ℤ) < jsRound (1/2 * 100) → jsRound (1/2 * 100) < (200 : ℤ) →
      sampleUpdatedState.dom.zoomOutBtn = some ⟨false⟩ ∧
      sampleUpdatedState.dom.zoomInBtn = some ⟨false⟩) :=
  enablement_after_update sampleReadyState sampleUpdatedState (1/2) 25 200
    rfl rfl rfl rfl rfl

/-- C4: for every non-finite or non-numeric `scale` (`NaN`, `±Infinity`,
`undefined`, any non-number), `setCurrentScale(scale)` returns
immediately: no error (the result is `some`), and the state — current
scale, label text and button enablement — is exactly the input state. -/
theorem setCurrentScale_nonfinite_noop (st : ZoomControlsState) (v : JSVal)
    (h : jsIsFinite v = false) :
    setCurrentScale st v = some st := by
  cases v <;> first | rfl | simp [jsIsFinite] at h

/-- C4 witness: `NaN` on a freshly constructed instance. -/
theorem setCurrentScale_nonfinite_noop_witness :
    setCurrentScale constructedState JSVal.nan = some constructedState :=
  setCurrentScale_nonfinite_noop constructedState JSVal.nan rfl

/-- C7: constructing with anything that is not a `Controls` instance
(`null`, a plain object) throws `'controls must be an instance of
Controls'`; with a valid host, construction only stores the host and its
root element reference — every other field is untouched (`undefined`) and
the DOM contains no zoom elements yet. -/
theorem constructor_spec :
    (∀ a : ControlsArg, a ≠ ControlsArg.controlsInstance →
        zoomControlsConstructor a =
          Except.error "controls must be an instance of Controls") ∧
    zoomControlsConstructor ControlsArg.controlsInstance = Except.ok constructedState ∧
    constructedState.controlsStored = true ∧
    constructedState.controlsElementStored = true ∧
    constructedState.dom = { zoomOutBtn := none, zoomInBtn := none, scaleLabel := none } ∧
    constructedState.currentScale = JSVal.undef ∧
    constructedState.minZoom = JSVal.undef ∧
    constructedState.maxZoom = JSVal.undef ∧
    constructedState.currentScaleElement = ElemRef.undef := by
  refine ⟨?_, rfl, rfl, rfl, rfl, rfl, rfl, rfl, rfl⟩
  intro a ha
  cases a with
  | controlsInstance => exact absurd rfl ha
  | nullValue => rfl
  | plainObject => rfl

/-- C7 witness: `new ZoomControls(null)` throws. -/
theorem constructor_spec_witness :
    zoomControlsConstructor ControlsArg.nullValue =
      Except.error "controls must be an instance of Controls" :=
  constructor_spec.1 ControlsArg.nullValue (by decide)

/-- C9: the enablement check is total (it never throws, by its type
`ZoomControlsState → ZoomControlsState`); when a button element is
missing from the DOM it stays missing (its update is skipped), while the
other button, if present, is still updated to its computed disabled
state. -/
theorem enablement_missing_buttons (st : ZoomControlsState) :
    (st.dom.zoomOutBtn = none →
      (checkButtonEnablement st).dom.zoomOutBtn = none ∧
      (st.dom.zoomInBtn.isSome = true →
        (checkButtonEnablement st).dom.zoomInBtn =
          some ⟨jsGe st.currentScale st.maxZoom⟩)) ∧
    (st.dom.zoomInBtn = none →
      (checkButtonEnablement st).dom.zoomInBtn = none ∧
      (st.dom.zoomOutBtn.isSome = true →
        (checkButtonEnablement st).dom.zoomOutBtn =
          some ⟨jsLe st.currentScale st.minZoom⟩)) := by
  unfold checkButtonEnablement
  cases h1 : st.dom.zoomOutBtn <;> cases h2 : st.dom.zoomInBtn <;> simp [h1, h2]

/-- C9 witness: with the zoom-out button missing and the zoom-in button
present, the check leaves the former absent and still updates the
latter. -/
theorem enablement_missing_buttons_witness :
    (checkButtonEnablement missingOutState).dom.zoomOutBtn = none ∧
    (checkButtonEnablement missingOutState).dom.zoomInBtn =
      some ⟨jsGe missingOutState.currentScale missingOutState.maxZoom⟩ :=
  ⟨((enablement_missing_buttons missingOutState).1 rfl).1,
   ((enablement_missing_buttons missingOutState).1 rfl).2 rfl⟩

/-- C10: calling `setCurrentScale` with a finite scale before `init` has
cached the label element dereferences `undefined` and throws (result
`none`); with the label cached (as `init` leaves it), the same call
always succeeds. -/
theorem setCurrentScale_before_init (st : ZoomControlsState) (q : ℚ)
    (h : st.currentScaleElement = ElemRef.undef) :
    setCurrentScale st (JSVal.num q) = none ∧
    ∀ st2 : ZoomControlsState, st2.currentScaleElement = ElemRef.labelRef →
      (setCurrentScale st2 (JSVal.num q)).isSome = true := by
  constructor
  · unfold setCurrentScale
    rw [h]
  · intro st2 h2
    rw [setCurrentScale_num_eq st2 q h2]
    rfl

/-- C10 witness: a freshly constructed, never-initialized instance fails
on `setCurrentScale(1)`. -/
theorem setCurrentScale_before_init_witness :
    setCurrentScale constructedState (JSVal.num 1) = none :=
  (setCurrentScale_before_init constructedState 1 rfl).1

/-- The state produced by `init(1, { minZoom: 0.25, maxZoom: 2 })` on a
freshly constructed instance. -/
def sampleInitState : ZoomControlsState :=
  checkButtonEnablement
    { initReadyState constructedState ⟨JSVal.num (1/4), JSVal.num 2⟩ with
        currentScale := JSVal.num (jsRound (1 * 100))
        dom := { (initReadyState constructedState ⟨JSVal.num (1/4), JSVal.num 2⟩).dom with
                   scaleLabel :=
                     some (LabelContent.textNode (toString (jsRound (1 * 100)) ++ "%")) } }

/-- C3: after `init`, the stored minimum bound is
`round(max(minZoom, 0) * 100)` for finite `minZoom` and `0` for
non-finite or absent `minZoom`; the stored maximum bound is
`round(maxZoom * 100)` for finite `maxZoom` and `+Infinity` for
non-finite or absent `maxZoom` — and against an infinite bound the
zoom-in comparison `currentScale >= maxZoom` is false for every finite
scale, so zoom-in is never disabled on the upper side. -/
theorem init_bounds (st st' : ZoomControlsState) (cs : JSVal) (opts : InitOptions)
    (h : init st cs opts = some st') :
    (∀ q : ℚ, opts.minZoom = JSVal.num q →
        st'.minZoom = JSVal.num ((jsRound (max q 0 * 100) : ℤ) : ℚ)) ∧
    (jsIsFinite opts.minZoom = false → st'.minZoom = JSVal.num 0) ∧
    (∀ q : ℚ, opts.maxZoom = JSVal.num q →
        st'.maxZoom = JSVal.num ((jsRound (q * 100) : ℤ) : ℚ)) ∧
    (jsIsFinite opts.maxZoom = false →
        st'.maxZoom = JSVal.posInf ∧
        ∀ n : ℚ, jsGe (JSVal.num n) JSVal.posInf = false) := by
  unfold init at h
  obtain ⟨hpmin, hpmax, -, -, -⟩ := setCurrentScale_preserves _ _ _ h
  have hmin0 : (initReadyState st opts).minZoom =
      jsMathRound (jsMul100 (jsMax0 (validateZoom
        (if opts.minZoom = JSVal.undef then JSVal.num 0 else opts.minZoom)
        (JSVal.num 0)))) := rfl
  have hmax0 : (initReadyState st opts).maxZoom =
      jsMathRound (jsMul100 (validateZoom
        (if opts.maxZoom = JSVal.undef then JSVal.posInf else opts.maxZoom)
        JSVal.posInf)) := rfl
  refine ⟨?_, ?_, ?_, ?_⟩
  · intro q hq
    rw [hpmin, hmin0, hq]
    simp [validateZoom, jsIsFinite, jsMax0, jsMul100, jsMathRound]
  · intro hnf
    rw [hpmin, hmin0]
    rcases hc : opts.minZoom with q | _ | _ | _ | _ | _
    · rw [hc] at hnf
      simp [jsIsFinite] at hnf
    all_goals simp [validateZoom, jsIsFinite, jsMax0, jsMul100, jsMathRound]
    all_goals norm_num [jsRound]
  · intro q hq
    rw [hpmax, hmax0, hq]
    simp [validateZoom, jsIsFinite, jsMul100, jsMathRound]
  · intro hnf
    refine ⟨?_, fun n => rfl⟩
    rw [hpmax, hmax0]
    rcases hc : opts.maxZoom with q | _ | _ | _ | _ | _
    · rw [hc] at hnf
      simp [jsIsFinite] at hnf
    all_goals simp [validateZoom, jsIsFinite, jsMul100, jsMathRound]

/-- C3 witness: `init(1, { minZoom: 0.25, maxZoom: 2 })` stores the two
bound formulas at those inputs. -/
theorem init_bounds_witness :
    sampleInitState.minZoom = JSVal.num ((jsRound (max (1/4) 0 * 100) : ℤ) : ℚ) ∧
    sampleInitState.maxZoom = JSVal.num ((jsRound (2 * 100) : ℤ) : ℚ) :=
  ⟨(init_bounds constructedState sampleInitState (JSVal.num 1)
      ⟨JSVal.num (1/4), JSVal.num 2⟩ rfl).1 (1/4) rfl,
   (init_bounds constructedState sampleInitState (JSVal.num 1)
      ⟨JSVal.num (1/4), JSVal.num 2⟩ rfl).2.2.1 2 rfl⟩

/-- C5 counterexample: `init(1, { minZoom: 2, maxZoom: 0.5 })` stores
minZoomPercent = 200 and maxZoomPercent = 50, both finite with 200 > 50:
the code never validates the bounds against each other, refuting the
claimed invariant `minZoomPercent ≤ maxZoomPercent`. -/
theorem bounds_order_counterexample :
    (init constructedState (JSVal.num 1) ⟨JSVal.num 2, JSVal.num (1/2)⟩).map
        (fun s => (s.minZoom, s.maxZoom)) =
      some (JSVal.num 200, JSVal.num 50) ∧ ¬ ((200 : ℚ) ≤ 50) := by
  refine ⟨?_, by norm_num⟩
  have h : (init constructedState (JSVal.num 1) ⟨JSVal.num 2, JSVal.num (1/2)⟩).map
      (fun s => (s.minZoom, s.maxZoom)) =
      some (JSVal.num ((jsRound (max 2 0 * 100) : ℤ) : ℚ),
            JSVal.num ((jsRound (1/2 * 100) : ℤ) : ℚ)) := rfl
  rw [h]
  norm_num [jsRound]

/-- C5 amended: the bounds are set once by `init` and left unchanged by
every subsequent `setCurrentScale` call, but the ordering
`minZoomPercent ≤ maxZoomPercent` is not enforced for caller-supplied
finite bounds. -/
theorem bounds_immutable (st st' : ZoomControlsState) (v : JSVal)
    (h : setCurrentScale st v = some st') :
    st'.minZoom = st.minZoom ∧ st'.maxZoom = st.maxZoom :=
  ⟨(setCurrentScale_preserves st st' v h).1, (setCurrentScale_preserves st st' v h).2.1⟩

/-- C5 witness: the concrete update to 50% leaves the 25 / 200 bounds
untouched. -/
theorem bounds_immutable_witness :
    sampleUpdatedState.minZoom = sampleReadyState.minZoom ∧
    sampleUpdatedState.maxZoom = sampleReadyState.maxZoom :=
  bounds_immutable sampleReadyState sampleUpdatedState (JSVal.num (1/2)) rfl

/-- C6 counterexample: the negative finite scale −1 is accepted by
`setCurrentScale` (run here through `init(-1, {})`) and stores
CurrentScale = −100, which is negative — refuting "always a non-negative
finite integer" for negative finite inputs. -/
theorem currentScale_negative_counterexample :
    (init constructedState (JSVal.num (-1)) ⟨JSVal.undef, JSVal.undef⟩).map
        (fun s => s.currentScale) = some (JSVal.num (-100)) ∧ ¬ ((0 : ℚ) ≤ -100) := by
  refine ⟨?_, by norm_num⟩
  have h : (init constructedState (JSVal.num (-1)) ⟨JSVal.undef, JSVal.undef⟩).map
      (fun s => s.currentScale) =
      some (JSVal.num ((jsRound ((-1) * 100) : ℤ) : ℚ)) := rfl
  rw [h]
  norm_num [jsRound]

/-- C6 amended: once CurrentScale has been set it is always a finite
integer after every further operation, and it is non-negative whenever
the finite input scale is non-negative (negative inputs yield negative
integers). -/
theorem currentScale_integer_invariant (st st' : ZoomControlsState) (v : JSVal)
    (h : setCurrentScale st v = some st')
    (hset : (∃ n : ℤ, st.currentScale = JSVal.num (n : ℚ)) ∨ jsIsFinite v = true) :
    (∃ n : ℤ, st'.currentScale = JSVal.num (n : ℚ)) ∧
    ∀ q : ℚ, v = JSVal.num q → 0 ≤ q →
      ∃ n : ℤ, st'.currentScale = JSVal.num (n : ℚ) ∧ 0 ≤ n := by
  cases v with
  | num q =>
    have hlbl : st.currentScaleElement = ElemRef.labelRef := by
      by_contra hne
      rw [setCurrentScale] at h
      rcases hc : st.currentScaleElement with _ | _ | _ <;> rw [hc] at h <;>
        first | exact hne hc | exact Option.noConfusion h
    rw [setCurrentScale_num_eq st q hlbl] at h
    simp only [Option.some.injEq] at h
    subst h
    refine ⟨⟨jsRound (q * 100), rfl⟩, ?_⟩
    intro r hr hr0
    have hqr : q = r := by
      injection hr
    subst hqr
    exact ⟨jsRound (q * 100), rfl,
      jsRound_nonneg (q * 100) (mul_nonneg hr0 (by norm_num))⟩
  | nan =>
    simp [setCurrentScale] at h
    subst h
    rcases hset with h1 | h2
    · exact ⟨h1, fun r hr => absurd hr (by simp)⟩
    · simp [jsIsFinite] at h2
  | posInf =>
    simp [setCurrentScale] at h
    subst h
    rcases hset with h1 | h2
    · exact ⟨h1, fun r hr => absurd hr (by simp)⟩
    · simp [jsIsFinite] at h2
  | negInf =>
    simp [setCurrentScale] at h
    subst h
    rcases hset with h1 | h2
    · exact ⟨h1, fun r hr => absurd hr (by simp)⟩
    · simp [jsIsFinite] at h2
  | undef =>
    simp [setCurrentScale] at h
    subst h
    rcases hset with h1 | h2
    · exact ⟨h1, fun r hr => absurd hr (by simp)⟩
    · simp [jsIsFinite] at h2
  | other =>
    simp [setCurrentScale] at h
    subst h
    rcases hset with h1 | h2
    · exact ⟨h1, fun r hr => absurd hr (by simp)⟩
    · simp [jsIsFinite] at h2

/-- C6 witness: the concrete update of `sampleReadyState` to scale 0.5
yields an integer, non-negative CurrentScale. -/
theorem currentScale_integer_invariant_witness :
    (∃ n : ℤ, sampleUpdatedState.currentScale = JSVal.num (n : ℚ)) ∧
    ∀ q : ℚ, JSVal.num (1/2) = JSVal.num q → 0 ≤ q →
      ∃ n : ℤ, sampleUpdatedState.currentScale = JSVal.num (n : ℚ) ∧ 0 ≤ n :=
  currentScale_integer_invariant sampleReadyState sampleUpdatedState (JSVal.num (1/2))
    rfl (Or.inr rfl)

/-- C8: evaluation at the failing input.  `init(0.5, {})` leaves the scale
label displaying `"50%"`, but on a bare text node with no
`data-testid="current-zoom"` marker: the `textContent` assignment inside
`setCurrentScale` replaced the marker span that `init`'s markup created,
so after any successful scale update the numeric text is no longer on a
marker-carrying node. -/
theorem testid_marker_lost :
    (init constructedState (JSVal.num (1/2)) ⟨JSVal.undef, JSVal.undef⟩).map
        (fun s => s.dom.scaleLabel.map
          (fun c => (labelVisibleText c, labelHasTestMarker c))) =
      some (some ("50%", false)) := by
  have h : (init constructedState (JSVal.num (1/2)) ⟨JSVal.undef, JSVal.undef⟩).map
      (fun s => s.dom.scaleLabel.map
        (fun c => (labelVisibleText c, labelHasTestMarker c))) =
      some (some (toString (jsRound (1/2 * 100)) ++ "%", false)) := rfl
  rw [h]
  have h50 : jsRound (1/2 * 100) = 50 := by norm_num [jsRound]
  rw [h50]
  rfl
